import Mathlib
set_option linter.unusedVariables false

/-
Verification development for the two Graphiti tutorial scripts
(`beginner/tutorial.py` and `advanced/tutorial.py`).

The Python code is shallowly embedded: pure expressions become Lean
functions, the effectful `main` procedures become functions from an
explicit input environment (prompt answers, file presence, results of the
external search calls, per-turn graph outcomes) to a result record that
tracks the observable events the specification talks about (logged errors,
printed lines, ingested episodes, connection-close calls, termination
outcome).  External library calls (Graphiti search, the LLM) are modelled
as input data or function parameters: their results flow into this code,
their internals are out of scope.
-/

set_option autoImplicit false

namespace LlmLocal

/-! ## Python string primitives used by the scripts -/

/-- Python `str.lower()` restricted to ASCII, which covers every input the
scripts compare ("yes", "exit", and user-typed variants thereof): lowercases
each character of the string. -/
def pyLower (s : String) : String :=
  String.mk (s.data.map Char.toLower)

/-- Python truthiness test `not s` for a string: true exactly on `""`. -/
def pyNot (s : String) : Bool :=
  s = ""

/-- Python `a or b` for an optional string `a` (None or a str) and a string
default `b`: yields `b` when `a` is `None` or the empty string. -/
def pyOrString : Option String → String → String
  | none, d => d
  | some s, d => if s = "" then d else s

/-! ## Configuration (both scripts)

`os.environ.get(key, default)` over an environment mapping, and the three
connection parameters read at module load:

  neo4j_uri = os.environ.get("NEO4J_URI", "bolt://localhost:7687")
  neo4j_user = os.environ.get("NEO4J_USER", "neo4j")
  neo4j_password = os.environ.get("NEO4J_PASSWORD", "password")
-/

/-- Model of `os.environ.get(key, default)`: the environment is a partial
mapping from variable names to values. -/
def osEnvironGet (env : String → Option String) (key dflt : String) : String :=
  (env key).getD dflt

def neo4j_uri (env : String → Option String) : String :=
  osEnvironGet env "NEO4J_URI" "bolt://localhost:7687"

def neo4j_user (env : String → Option String) : String :=
  osEnvironGet env "NEO4J_USER" "neo4j"

def neo4j_password (env : String → Option String) : String :=
  osEnvironGet env "NEO4J_PASSWORD" "password"

/-- The beginner-script guard
`if not neo4j_uri or not neo4j_user or not neo4j_password: raise ValueError(...)`:
true exactly when the ValueError is raised. -/
def beginnerValueErrorRaised (env : String → Option String) : Bool :=
  pyNot (neo4j_uri env) || pyNot (neo4j_user env) || pyNot (neo4j_password env)

/-- The Graphiti client constructed at module load of the advanced script:
`client = Graphiti(neo4j_uri, neo4j_user, neo4j_password)`.  Only the
constructor arguments are modelled; the behaviour of the client is external. -/
structure GraphitiClient where
  uri : String
  user : String
  password : String
deriving DecidableEq

def client (env : String → Option String) : GraphitiClient :=
  { uri := neo4j_uri env, user := neo4j_user env, password := neo4j_password env }

/-! ## Search results and the facts formatter (advanced script)

  def edges_to_facts_string(entities: list[EntityEdge]):
      return "- " + "\\n- ".join([edge.fact for edge in entities])

Note that the Python source spells the separator `"\\n- "`: an escaped
backslash followed by `n`, i.e. the four characters `\`, `n`, `-`, space,
not a newline.  The embedding reproduces that literal exactly.
-/

/-- The slice of the Graphiti `EntityEdge` this code reads: the textual fact. -/
structure EntityEdge where
  fact : String
deriving DecidableEq

def edges_to_facts_string (entities : List EntityEdge) : String :=
  "- " ++ String.intercalate "\\n- " (entities.map (fun edge => edge.fact))

/-- Arguments of a `client.search(query, center_node_uuid=..., num_results=...)`
call.  The external search itself is modelled as a function from these
arguments to the returned edges. -/
structure SearchCall where
  query : String
  center_node_uuid : String
  num_results : Nat
deriving DecidableEq

/-- The tool callback:

  async def get_shoe_data(query: str, state: State) -> str:
      edge_results = await client.search(
          query, center_node_uuid=state["manybirds_node_uuid"], num_results=10)
      return edges_to_facts_string(edge_results)

The external search is the parameter `search`; the callback forwards the
query string together with the brand center node and formats the result. -/
def get_shoe_data (search : SearchCall → List EntityEdge)
    (query : String) (manybirds_node_uuid : String) : String :=
  edges_to_facts_string
    (search { query := query, center_node_uuid := manybirds_node_uuid, num_results := 10 })

/-! ## Product episode bodies (advanced script, setup_database)

  episode_body=str({k: v for k, v in product.items() if k != "images"})

A product is an association list of key-value pairs (insertion order, as in
a Python dict); values are abstracted by a type `α` together with the
rendering function rendering function that the Python `str` applies to them.
-/

/-- The Python `str` of a dict with string keys: entries of the form key, colon, rendered value, joined
by `", "` inside braces. -/
def pyDictStr {α : Type} (reprVal : α → String) (d : List (String × α)) : String :=
  "\x7b" ++ String.intercalate ", "
    (d.map (fun kv => "\x27" ++ kv.1 ++ "\x27: " ++ reprVal kv.2)) ++ "\x7d"

/-- Python `repr` of a plain string value (used when values are strings). -/
def pyStrRepr (s : String) : String :=
  "\x27" ++ s ++ "\x27"

/-- The dict comprehension `{k: v for k, v in product.items() if k != "images"}`. -/
def episodeDict {α : Type} (product : List (String × α)) : List (String × α) :=
  product.filter (fun kv => kv.1 != "images")

/-- The episode body string passed to `add_episode` for a product. -/
def episode_body {α : Type} (reprVal : α → String) (product : List (String × α)) : String :=
  pyDictStr reprVal (episodeDict product)

/-! ## Exceptions and termination outcomes -/

/-- The Python exceptions this code can raise or catch. -/
inductive Exc where
  | indexError
  | attributeError
  | eofError
  | other (msg : String)
deriving DecidableEq

/-- How a procedure terminates: normally, or by an exception propagating out. -/
inductive Outcome where
  | normal
  | uncaught (e : Exc)
deriving DecidableEq

/-- The slice of the Graphiti node result this code reads: the uuid. -/
structure EntityNode where
  uuid : String
deriving DecidableEq

/-- The idiom `result.nodes[0].uuid` applied to an optional node list:
a result without a `nodes` attribute raises AttributeError, an empty
`nodes` list raises IndexError at `[0]`. -/
def firstNodeUuid : Option (List EntityNode) → Except Exc String
  | none => .error .attributeError
  | some [] => .error .indexError
  | some (n :: _) => .ok n.uuid

def isErr {α : Type} : Except Exc α → Bool
  | .error _ => true
  | .ok _ => false

/-- The `logger.error` events the advanced script can emit (message text
abbreviated to its identity). -/
inductive LogEvent where
  | productDataNotFound
  | nodesNotFound
deriving DecidableEq

/-! ## Episodes written by this code -/

/-- The arguments of an `add_episode` call that this code computes
(reference time and source kind are external/ambient). -/
structure EpisodeReq where
  name : String
  episode_body : String
  source_description : String
deriving DecidableEq

/-! ## The chatbot node (advanced script)

  async def chatbot(state: State):
      facts_string = None
      if len(state["messages"]) > 0:
          last_message = state["messages"][-1]
          graphiti_query = f"...{..."SalesBot" if isinstance(last_message, AIMessage)
                              else state["user_name"]}: {last_message.content}..."
          edge_results = await client.search(
              graphiti_query, center_node_uuid=state["user_node_uuid"], num_results=5)
          facts_string = edges_to_facts_string(edge_results)
      system_message = SystemMessage(content=f"""...{facts_string or ...No facts...}""")
      response = await llm.ainvoke([system_message] + state["messages"])
      asyncio.create_task(client.add_episode(
          name="Chatbot Response",
          episode_body=f"{state[...user_name...]}: {state[...messages...][-1].content}\\n"
                       f"SalesBot: {response.content}", ...))
      return {"messages": [response]}
-/

/-- A LangChain message: AI-authored or not, with textual content. -/
structure Message where
  isAI : Bool
  content : String
deriving DecidableEq

/-- The fields of the LangGraph `State` dict the chatbot node reads. -/
structure ChatbotIn where
  messages : List Message
  user_name : String
  user_node_uuid : String
  manybirds_node_uuid : String
deriving DecidableEq

/-- What the chatbot node produces: the returned state update
`{"messages": [response]}` and the episode write it spawns with
`asyncio.create_task` (fire-and-forget, handle dropped). -/
structure ChatbotOut where
  returned_messages : List Message
  spawned : List EpisodeReq
deriving DecidableEq

/-- The query built for the user-centered search:
`f"{...SalesBot... if isinstance(last_message, AIMessage) else state[...user_name...]}: {last_message.content}"` -/
def chat_graphiti_query (state : ChatbotIn) (last_message : Message) : String :=
  (if last_message.isAI then "SalesBot" else state.user_name) ++ ": " ++ last_message.content

/-- `facts_string`: None when the message list is empty, otherwise the
formatted results of the user-centered search on the last message. -/
def chat_facts_string (search : SearchCall → List EntityEdge) (state : ChatbotIn) :
    Option String :=
  match state.messages.getLast? with
  | none => none
  | some last_message =>
      some (edges_to_facts_string (search
        { query := chat_graphiti_query state last_message,
          center_node_uuid := state.user_node_uuid, num_results := 5 }))

/-- The fixed part of the system prompt, up to the interpolated facts. -/
def systemPromptLeadText : String :=
  "You are a skillful shoe salesperson for ManyBirds. Review the user info and conversation history below to respond.\n        Keep responses concise. Your goal is to be helpful and make a sale.\n\n        Key info to gather:\n        - Shoe size\n        - Specific needs (e.g., wide feet)\n        - Preferred colors and styles\n        - Budget\n\n        Ask for this info if you don\x27t have it.\n\n        Facts about the user and their conversation:\n        "

/-- The `SystemMessage` built each turn. -/
def chat_system_message (search : SearchCall → List EntityEdge) (state : ChatbotIn) :
    Message :=
  { isAI := false,
    content := systemPromptLeadText ++
      pyOrString (chat_facts_string search state)
        "No facts about the user and their conversation" }

/-- `response = await llm.ainvoke([system_message] + state["messages"])`;
the LLM is the external parameter `respond`. -/
def chat_response (search : SearchCall → List EntityEdge)
    (respond : List Message → Message) (state : ChatbotIn) : Message :=
  respond (chat_system_message search state :: state.messages)

/-- The episode the chatbot spawns for the conversation turn.  Note the
Python source writes the separator as `\\n` (a literal backslash and `n`). -/
def chat_episode (state : ChatbotIn) (last_message : Message) (response : Message) :
    EpisodeReq :=
  { name := "Chatbot Response",
    episode_body := state.user_name ++ ": " ++ last_message.content ++
      "\\nSalesBot: " ++ response.content,
    source_description := "Chatbot" }

/-- The chatbot node body.  On an empty message list the episode-body
the f-string expression `state["messages"][-1]` raises IndexError. -/
def chatbot (search : SearchCall → List EntityEdge)
    (respond : List Message → Message) (state : ChatbotIn) : Except Exc ChatbotOut :=
  match state.messages.getLast? with
  | none => .error .indexError
  | some last_message =>
      .ok { returned_messages := [chat_response search respond state],
            spawned := [chat_episode state last_message
              (chat_response search respond state)] }

/-- The chatbot together with the eventual outcome of the background episode
write it spawned.  The code drops the task handle returned by
`asyncio.create_task` and never awaits or inspects it, so the outcome
parameter cannot influence the result. -/
def chatbot_with_background (search : SearchCall → List EntityEdge)
    (respond : List Message → Message) (state : ChatbotIn)
    (bg_write_ok : Bool) : Except Exc ChatbotOut :=
  chatbot search respond state

deriving instance DecidableEq for Except

/-! ## The main procedure of the advanced script

All interaction with the outside world (the prompt answers, whether the
product JSON file exists, what the external searches return, what each
graph-stream execution of each turn does) is collected in an input record; the
procedure maps it to the observable events.
-/

/-- The input environment of one run of the advanced script. -/
structure AdvInput where
  /-- Answer typed at the `Do you want to run the initial database setup?` prompt. -/
  run_setup : String
  /-- Whether `manybirds_products.json` exists. -/
  file_exists : Bool
  /-- The parsed `products` list: each product a dict of key-value pairs. -/
  products : List (List (String × String))
  /-- Result of `client._search("jess", ...)` inside setup_database:
  `none` models a result without a `nodes` attribute. -/
  setup_user_nodes : Option (List EntityNode)
  /-- Result of `client._search("ManyBirds", ...)` inside setup_database. -/
  setup_brand_nodes : Option (List EntityNode)
  /-- Result of `client._search("jess", ...)` on the no-setup path. -/
  lookup_user_nodes : Option (List EntityNode)
  /-- Result of `client._search("ManyBirds", ...)` on the no-setup path. -/
  lookup_brand_nodes : Option (List EntityNode)
  /-- The chat turns: each a user input line together with the outcome of
  the `graph.astream` execution of that turn (`.ok chunks` streams content,
  `.error msg` raises an exception rendered as `msg`). -/
  turns : List (String × Except String (List String))
deriving DecidableEq

/-- What setup_database produces: logged errors, the episodes it ingested,
and either the returned pair `(user_node_uuid, manybirds_node_uuid)` or an
uncaught exception. -/
structure SetupResult where
  loggedErrors : List LogEvent
  episodes : List EpisodeReq
  value : Except Exc (Option String × Option String)
deriving DecidableEq

/-- The episode ingested for product number `i`:
`name=product.get("title", f"Product {i}")`,
`episode_body=str({k: v for k, v in product.items() if k != "images"})`. -/
def productEpisode (i : Nat) (product : List (String × String)) : EpisodeReq :=
  { name := (product.lookup "title").getD ("Product " ++ toString i),
    episode_body := episode_body pyStrRepr product,
    source_description := "ManyBirds products" }

/-- The user-profile episode ingested after the products. -/
def userCreationEpisode : EpisodeReq :=
  { name := "User Creation",
    episode_body := "jess is interested in buying a pair of shoes",
    source_description := "SalesBot" }

/-- `setup_database`: wipes the graph (external), then

  if not json_file_path.exists():
      logger.error(f"Product data not found at {json_file_path}")
      return None, None
  ... ingest products, ingest user episode ...
  user_node_uuid = (await client._search("jess", ...)).nodes[0].uuid
  manybirds_node_uuid = (await client._search("ManyBirds", ...)).nodes[0].uuid
  return user_node_uuid, manybirds_node_uuid

The two `nodes[0].uuid` lookups are not inside any try block: their
IndexError / AttributeError propagates out of setup_database. -/
def setup_database (inp : AdvInput) : SetupResult :=
  if inp.file_exists = false then
    { loggedErrors := [.productDataNotFound], episodes := [], value := .ok (none, none) }
  else
    let eps := ((inp.products.enum.map fun p => productEpisode p.1 p.2) ++
      [userCreationEpisode])
    match firstNodeUuid inp.setup_user_nodes with
    | .error e => { loggedErrors := [], episodes := eps, value := .error e }
    | .ok user_node_uuid =>
        match firstNodeUuid inp.setup_brand_nodes with
        | .error e => { loggedErrors := [], episodes := eps, value := .error e }
        | .ok manybirds_node_uuid =>
            { loggedErrors := [], episodes := eps,
              value := .ok (some user_node_uuid, some manybirds_node_uuid) }

/-- Observable behaviour of the chat `while True` loop. -/
structure LoopOut where
  printed : List String
  /-- The user inputs handed to `graph.astream` as chat messages. -/
  invoked : List String
  outcome : Outcome
deriving DecidableEq

/-- One run of the chat loop over the list of turns:

  while True:
      user_input = input("You: ")
      if user_input.lower() == "exit":
          break
      ...print("Assistant: ")...
      try:
          async for event in graph.astream(...): ...print chunks...
      except Exception as e:
          print(f"An error occurred: {e}")

Running out of turns models `input()` raising EOFError (uncaught). -/
def runLoop : List (String × Except String (List String)) → LoopOut
  | [] => { printed := [], invoked := [], outcome := .uncaught .eofError }
  | (user_input, turn) :: rest =>
      if pyLower user_input = "exit" then
        { printed := [], invoked := [], outcome := .normal }
      else
        let turnPrinted :=
          match turn with
          | .ok chunks => "Assistant: " :: chunks
          | .error e => ["Assistant: ", "An error occurred: " ++ e]
        let l := runLoop rest
        { printed := turnPrinted ++ l.printed,
          invoked := user_input :: l.invoked,
          outcome := l.outcome }

/-- Observable behaviour of one run of the advanced-script main. -/
structure AdvResult where
  loggedErrors : List LogEvent
  episodes : List EpisodeReq
  /-- Whether the destructive setup_database branch was taken. -/
  ranSetup : Bool
  /-- Whether the chat loop was entered. -/
  reachedLoop : Bool
  /-- The `(user_node_uuid, manybirds_node_uuid)` stored in the conversation
  state passed to the loop, when it was entered. -/
  loopUuids : Option (Option String × Option String)
  printed : List String
  invoked : List String
  /-- How many times `client.close()` ran. -/
  closeCalls : Nat
  outcome : Outcome
deriving DecidableEq

/-- The banner printed before the loop.  The Python source spells the first
leading `\\n` of the first line with an escaped backslash, reproduced here. -/
def advHeader : List String :=
  ["\\n--- ShoeBot is ready! ---",
   "Type \x27exit\x27 to end the conversation.",
   "Hello, how can I help you find shoes today?"]

/-- Entering the chat loop with the resolved state, then
`await client.close()` and the closing banner — which only run when the
loop finishes normally (via the `exit` sentinel); an exception escaping the
loop skips both. -/
def enterLoop (ranSetup : Bool) (logged : List LogEvent) (eps : List EpisodeReq)
    (user_uuid manybirds_uuid : Option String) (inp : AdvInput) : AdvResult :=
  match (runLoop inp.turns).outcome with
  | .normal =>
      { loggedErrors := logged, episodes := eps, ranSetup := ranSetup,
        reachedLoop := true, loopUuids := some (user_uuid, manybirds_uuid),
        printed := advHeader ++ (runLoop inp.turns).printed ++
          ["\\n--- Conversation ended ---"],
        invoked := (runLoop inp.turns).invoked, closeCalls := 1, outcome := .normal }
  | .uncaught e =>
      { loggedErrors := logged, episodes := eps, ranSetup := ranSetup,
        reachedLoop := true, loopUuids := some (user_uuid, manybirds_uuid),
        printed := advHeader ++ (runLoop inp.turns).printed,
        invoked := (runLoop inp.turns).invoked, closeCalls := 0, outcome := .uncaught e }

/-- The `if run_setup.lower() == "yes"` branch of main:

  user_uuid, manybirds_uuid = await setup_database()
  if user_uuid is None:
      return

An exception from setup_database propagates (the call is not guarded). -/
def advSetupBranch (inp : AdvInput) : AdvResult :=
  match (setup_database inp).value with
  | .error e =>
      { loggedErrors := (setup_database inp).loggedErrors,
        episodes := (setup_database inp).episodes, ranSetup := true,
        reachedLoop := false, loopUuids := none, printed := [], invoked := [],
        closeCalls := 0, outcome := .uncaught e }
  | .ok (user_uuid, manybirds_uuid) =>
      if user_uuid = none then
        { loggedErrors := (setup_database inp).loggedErrors,
          episodes := (setup_database inp).episodes, ranSetup := true,
          reachedLoop := false, loopUuids := none, printed := [], invoked := [],
          closeCalls := 0, outcome := .normal }
      else
        enterLoop true (setup_database inp).loggedErrors (setup_database inp).episodes
          user_uuid manybirds_uuid inp

/-- The else branch of main:

  try:
      user_uuid = (await client._search("jess", ...)).nodes[0].uuid
      manybirds_uuid = (await client._search("ManyBirds", ...)).nodes[0].uuid
  except (IndexError, AttributeError):
      logger.error("Could not find existing user/brand nodes. ...")
      return
-/
def advNoSetupBranch (inp : AdvInput) : AdvResult :=
  match firstNodeUuid inp.lookup_user_nodes with
  | .error _ =>
      { loggedErrors := [.nodesNotFound], episodes := [], ranSetup := false,
        reachedLoop := false, loopUuids := none, printed := [], invoked := [],
        closeCalls := 0, outcome := .normal }
  | .ok user_uuid =>
      match firstNodeUuid inp.lookup_brand_nodes with
      | .error _ =>
          { loggedErrors := [.nodesNotFound], episodes := [], ranSetup := false,
            reachedLoop := false, loopUuids := none, printed := [], invoked := [],
            closeCalls := 0, outcome := .normal }
      | .ok manybirds_uuid =>
          enterLoop false [] [] (some user_uuid) (some manybirds_uuid) inp

/-- The `main` of the advanced script. -/
def advMain (inp : AdvInput) : AdvResult :=
  if pyLower inp.run_setup = "yes" then advSetupBranch inp else advNoSetupBranch inp

/-! ## The main procedure of the beginner script

Its body is a straight line of external calls inside `try: ... finally:
await graphiti.close(); print("Connection closed")`.  Its external
calls are abstracted to their combined outcome (did any of them raise) and
to the lines they printed on success. -/

/-- Input environment of one run of the beginner-script main. -/
structure BegInput where
  /-- `some e` when any awaited call inside the try block raises `e`. -/
  bodyFailure : Option Exc
  /-- The lines the try block prints when it completes (ingestion progress,
  search results — all driven by external results). -/
  bodyPrinted : List String
deriving DecidableEq

structure BegResult where
  closeCalls : Nat
  printed : List String
  outcome : Outcome
deriving DecidableEq

/-- The `main` of the beginner script: the finally block closes the connection
exactly once on both the normal and the exceptional path, and an exception
re-propagates after it. -/
def begMain (inp : BegInput) : BegResult :=
  match inp.bodyFailure with
  | none =>
      { closeCalls := 1, printed := inp.bodyPrinted ++ ["\nConnection closed"],
        outcome := .normal }
  | some e =>
      { closeCalls := 1, printed := ["\nConnection closed"],
        outcome := .uncaught e }

/-! ## Structural lemmas about the advanced main -/

theorem enterLoop_reachedLoop (ru : Bool) (lg : List LogEvent) (eps : List EpisodeReq)
    (u m : Option String) (inp : AdvInput) :
    (enterLoop ru lg eps u m inp).reachedLoop = true := by
  unfold enterLoop
  rcases h : (runLoop inp.turns).outcome with _ | e <;> simp [h]

theorem enterLoop_loopUuids (ru : Bool) (lg : List LogEvent) (eps : List EpisodeReq)
    (u m : Option String) (inp : AdvInput) :
    (enterLoop ru lg eps u m inp).loopUuids = some (u, m) := by
  unfold enterLoop
  rcases h : (runLoop inp.turns).outcome with _ | e <;> simp [h]

theorem enterLoop_ranSetup (ru : Bool) (lg : List LogEvent) (eps : List EpisodeReq)
    (u m : Option String) (inp : AdvInput) :
    (enterLoop ru lg eps u m inp).ranSetup = ru := by
  unfold enterLoop
  rcases h : (runLoop inp.turns).outcome with _ | e <;> simp [h]

theorem enterLoop_close_normal (ru : Bool) (lg : List LogEvent) (eps : List EpisodeReq)
    (u m : Option String) (inp : AdvInput)
    (ho : (enterLoop ru lg eps u m inp).outcome = Outcome.normal) :
    (enterLoop ru lg eps u m inp).closeCalls = 1 := by
  unfold enterLoop at ho ⊢
  rcases h : (runLoop inp.turns).outcome with _ | e <;> simp [h] at ho ⊢

theorem advSetupBranch_ranSetup (inp : AdvInput) :
    (advSetupBranch inp).ranSetup = true := by
  unfold advSetupBranch
  rcases h : (setup_database inp).value with e | ⟨uo, mo⟩ <;> simp [h]
  by_cases hu : uo = none <;> simp [hu, enterLoop_ranSetup]

theorem advNoSetupBranch_ranSetup (inp : AdvInput) :
    (advNoSetupBranch inp).ranSetup = false := by
  unfold advNoSetupBranch
  rcases hu : firstNodeUuid inp.lookup_user_nodes with e | u <;> simp [hu]
  rcases hb : firstNodeUuid inp.lookup_brand_nodes with e | m <;>
    simp [hb, enterLoop_ranSetup]

/-- A successful `setup_database` returns either `(None, None)` (missing
product file) or two resolved uuids; no mixed shape is possible. -/
theorem setup_value_shape (inp : AdvInput) (uo mo : Option String)
    (h : (setup_database inp).value = Except.ok (uo, mo)) :
    (uo = none ∧ mo = none) ∨ (∃ u m, uo = some u ∧ mo = some m) := by
  unfold setup_database at h
  by_cases hf : inp.file_exists = false
  · simp [hf] at h
    exact Or.inl ⟨h.1.symm, h.2.symm⟩
  · rcases hu : firstNodeUuid inp.setup_user_nodes with e | u <;> simp [hf, hu] at h
    rcases hb : firstNodeUuid inp.setup_brand_nodes with e | m <;> simp [hb] at h
    exact Or.inr ⟨u, m, h.1.symm, h.2.symm⟩

/-- Every run of the advanced main either stops before the chat loop with
no close call, or enters the loop with two resolved uuids. -/
theorem advMain_shape (inp : AdvInput) :
    ((advMain inp).reachedLoop = false ∧ (advMain inp).closeCalls = 0 ∧
      (advMain inp).loopUuids = none) ∨
    (∃ ru lg eps u m, advMain inp = enterLoop ru lg eps (some u) (some m) inp) := by
  unfold advMain
  by_cases hs : pyLower inp.run_setup = "yes" <;> simp only [hs, if_true, if_false]
  · unfold advSetupBranch
    rcases hv : (setup_database inp).value with e | ⟨uo, mo⟩
    · exact Or.inl ⟨rfl, rfl, rfl⟩
    · rcases setup_value_shape inp uo mo hv with ⟨h1, h2⟩ | ⟨u, m, h1, h2⟩
      · subst h1; subst h2
        exact Or.inl ⟨rfl, rfl, rfl⟩
      · subst h1; subst h2
        simp only [reduceCtorEq, if_neg]
        exact Or.inr ⟨true, (setup_database inp).loggedErrors,
          (setup_database inp).episodes, u, m, rfl⟩
  · unfold advNoSetupBranch
    rcases hu : firstNodeUuid inp.lookup_user_nodes with e | u
    · exact Or.inl ⟨rfl, rfl, rfl⟩
    · rcases hb : firstNodeUuid inp.lookup_brand_nodes with e | m
      · exact Or.inl ⟨rfl, rfl, rfl⟩
      · exact Or.inr ⟨false, [], [], u, m, rfl⟩

/-! ## Concrete runs used as counterexamples and witnesses -/

/-- Run: setup requested, product JSON file missing. -/
def runMissingFile : AdvInput :=
  { run_setup := "yes", file_exists := false, products := [],
    setup_user_nodes := none, setup_brand_nodes := none,
    lookup_user_nodes := none, lookup_brand_nodes := none, turns := [] }

/-- Run: setup requested (typed `Yes`), product JSON file missing. -/
def runMissingFileYes : AdvInput :=
  { run_setup := "Yes", file_exists := false, products := [],
    setup_user_nodes := none, setup_brand_nodes := none,
    lookup_user_nodes := none, lookup_brand_nodes := none, turns := [] }

/-- Run: setup requested, file present, but the user node search inside
setup_database finds no nodes. -/
def runSetupLookupEmpty : AdvInput :=
  { run_setup := "yes", file_exists := true, products := [],
    setup_user_nodes := some [], setup_brand_nodes := some [],
    lookup_user_nodes := none, lookup_brand_nodes := none, turns := [] }

/-- Run: no setup, existing-node lookup finds no user nodes. -/
def runNoSetupLookupEmpty : AdvInput :=
  { run_setup := "no", file_exists := true, products := [],
    setup_user_nodes := none, setup_brand_nodes := none,
    lookup_user_nodes := some [], lookup_brand_nodes := none, turns := [] }

/-- Run: no setup, both lookups resolve, one chat turn ending with `exit`. -/
def runOneExit : AdvInput :=
  { run_setup := "no", file_exists := true, products := [],
    setup_user_nodes := none, setup_brand_nodes := none,
    lookup_user_nodes := some [{ uuid := "u1" }],
    lookup_brand_nodes := some [{ uuid := "m1" }],
    turns := [("exit", Except.ok [])] }

/-- Run: setup answered `YES`, file present, both setup lookups resolve,
one chat turn ending with `EXIT`. -/
def runSetupThenExit : AdvInput :=
  { run_setup := "YES", file_exists := true,
    products := [[("title", "Wool Runner"), ("images", "img0")]],
    setup_user_nodes := some [{ uuid := "u1" }],
    setup_brand_nodes := some [{ uuid := "m1" }],
    lookup_user_nodes := none, lookup_brand_nodes := none,
    turns := [("EXIT", Except.ok [])] }

/-! ## The claims -/

/-- C1: the claim says `edges_to_facts_string` joins the facts by a newline
followed by `- `, putting each fact on its own line.  The source joins them
with the Python literal `"\\n- "` (single quotes in the source), i.e. a literal backslash and `n`, not a
newline: on two facts the result is the single-line string
`- fact one\n- fact two` (with a real backslash character), which differs
from the newline-separated string the claim describes, and the tool
callback `get_shoe_data` reports the same single-line string. -/
theorem C1_backslash_join :
    edges_to_facts_string [{ fact := "fact one" }, { fact := "fact two" }] =
      "- fact one\\n- fact two" ∧
    edges_to_facts_string [{ fact := "fact one" }, { fact := "fact two" }] ≠
      "- fact one\n- fact two" ∧
    get_shoe_data (fun _ => [{ fact := "fact one" }, { fact := "fact two" }])
      "wide shoes" "m-uuid" = "- fact one\\n- fact two" := by
  exact ⟨by decide, by decide, by decide⟩

/-- C9: on an empty result list `edges_to_facts_string` returns the lone
bullet prefix `- ` (two characters), and `get_shoe_data` therefore reports
`- ` to the agent when the external search returns zero edges. -/
theorem C9_empty_results (search : SearchCall → List EntityEdge)
    (query manybirds_node_uuid : String)
    (h : search { query := query, center_node_uuid := manybirds_node_uuid,
                  num_results := 10 } = []) :
    edges_to_facts_string [] = "- " ∧
    get_shoe_data search query manybirds_node_uuid = "- " := by
  refine ⟨by decide, ?_⟩
  unfold get_shoe_data
  rw [h]
  decide

theorem C9_empty_results_witness :
    edges_to_facts_string [] = "- " ∧
    get_shoe_data (fun _ => []) "wide shoes" "m-uuid" = "- " :=
  C9_empty_results (fun _ => []) "wide shoes" "m-uuid" rfl

/-- C10: the product episode body is the rendering of the product dict with
the `images` key removed: the keys of the rendered dict are exactly the
product keys without `images` (in order), `images` is never among them,
and a pair survives the comprehension exactly when it is a pair of the
product whose key is not `images`. -/
theorem C10_images_removed {α : Type} (reprVal : α → String)
    (product : List (String × α)) :
    episode_body reprVal product = pyDictStr reprVal (episodeDict product) ∧
    (episodeDict product).map Prod.fst =
      (product.map Prod.fst).filter (fun k => k != "images") ∧
    "images" ∉ (episodeDict product).map Prod.fst ∧
    (∀ kv : String × α, kv ∈ episodeDict product ↔ kv ∈ product ∧ kv.1 ≠ "images") := by
  refine ⟨rfl, ?_, ?_, ?_⟩
  · unfold episodeDict
    induction product with
    | nil => rfl
    | cons kv tl ih =>
        by_cases hk : kv.1 = "images" <;> simp [List.filter_cons, hk, ih]
  · simp [episodeDict, List.mem_map, List.mem_filter]
  · intro kv
    simp [episodeDict, List.mem_filter]

theorem C10_images_removed_witness :
    "images" ∉ (episodeDict
      [("title", "TinyBirds Wool Runners"), ("images", "img0"),
       ("price", "120")]).map Prod.fst ∧
    (("title", "TinyBirds Wool Runners") ∈ episodeDict
      [("title", "TinyBirds Wool Runners"), ("images", "img0"), ("price", "120")] ↔
      ("title", "TinyBirds Wool Runners") ∈
        [("title", "TinyBirds Wool Runners"), ("images", "img0"), ("price", "120")] ∧
        ("title", "TinyBirds Wool Runners").1 ≠ "images") :=
  ⟨(C10_images_removed pyStrRepr _).2.2.1,
   (C10_images_removed pyStrRepr _).2.2.2 _⟩

/-- C2 counterexample: a run of the advanced script in which the user
answers `yes` to the setup prompt and the product JSON file is missing ends
normally (early return from main) with `client.close()` never called, so
the close call is not invoked exactly once on every path. -/
theorem C2_counterexample :
    (advMain runMissingFile).closeCalls = 0 ∧
    (advMain runMissingFile).outcome = Outcome.normal := by
  decide

/-- C2 amended: the beginner script closes the connection exactly once on
every path, exceptions included (try/finally); the advanced script closes
it exactly once on the paths that reach the chat loop and leave it
normally (via the exit sentinel), and not at all on the paths that return
or raise before the loop. -/
theorem C2_close_per_path (binp : BegInput) (inp : AdvInput) :
    (begMain binp).closeCalls = 1 ∧
    ((advMain inp).reachedLoop = true → (advMain inp).outcome = Outcome.normal →
      (advMain inp).closeCalls = 1) ∧
    ((advMain inp).reachedLoop = false → (advMain inp).closeCalls = 0) := by
  refine ⟨?_, ?_, ?_⟩
  · unfold begMain
    rcases h : binp.bodyFailure with _ | e <;> simp [h]
  · intro hr ho
    rcases advMain_shape inp with ⟨h1, _, _⟩ | ⟨ru, lg, eps, u, m, he⟩
    · rw [h1] at hr
      exact absurd hr (by decide)
    · rw [he] at ho ⊢
      exact enterLoop_close_normal ru lg eps (some u) (some m) inp ho
  · intro hr
    rcases advMain_shape inp with ⟨_, h2, _⟩ | ⟨ru, lg, eps, u, m, he⟩
    · exact h2
    · rw [he] at hr
      rw [enterLoop_reachedLoop ru lg eps (some u) (some m) inp] at hr
      exact absurd hr (by decide)

theorem C2_close_per_path_witness :
    (begMain { bodyFailure := some Exc.eofError, bodyPrinted := [] }).closeCalls = 1 ∧
    (advMain runOneExit).closeCalls = 1 := by
  have h := C2_close_per_path { bodyFailure := some Exc.eofError, bodyPrinted := [] }
    runOneExit
  exact ⟨h.1, h.2.1 (by decide) (by decide)⟩

/-- C3 counterexample: with setup requested, the product file present, and
the user node search inside setup_database returning an empty node list,
`user_node_list.nodes[0]` raises an IndexError that is not caught anywhere:
main ends with an uncaught exception and no error is logged, so not every
unresolved lookup is logged with an early return. -/
theorem C3_counterexample :
    (advMain runSetupLookupEmpty).outcome = Outcome.uncaught Exc.indexError ∧
    (advMain runSetupLookupEmpty).loggedErrors = [] ∧
    (advMain runSetupLookupEmpty).reachedLoop = false := by
  decide

/-- C3 amended: a missing product JSON file makes setup_database log an
error and return `(None, None)` with nothing ingested, and main then
returns before the chat loop; a failed user/brand lookup on the no-setup
path (IndexError or AttributeError) is logged and makes main return before
the loop.  Unresolved lookups inside setup_database, however, raise an
IndexError that propagates uncaught and unlogged out of main. -/
theorem C3_error_paths (inp : AdvInput) :
    (pyLower inp.run_setup = "yes" → inp.file_exists = false →
      (advMain inp).loggedErrors = [LogEvent.productDataNotFound] ∧
      (advMain inp).episodes = [] ∧
      (advMain inp).reachedLoop = false ∧
      (advMain inp).outcome = Outcome.normal) ∧
    (pyLower inp.run_setup ≠ "yes" →
      (isErr (firstNodeUuid inp.lookup_user_nodes) = true ∨
        isErr (firstNodeUuid inp.lookup_brand_nodes) = true) →
      (advMain inp).loggedErrors = [LogEvent.nodesNotFound] ∧
      (advMain inp).reachedLoop = false ∧
      (advMain inp).outcome = Outcome.normal) ∧
    (pyLower inp.run_setup = "yes" → inp.file_exists = true →
      inp.setup_user_nodes = some [] →
      (advMain inp).outcome = Outcome.uncaught Exc.indexError ∧
      (advMain inp).loggedErrors = []) := by
  refine ⟨?_, ?_, ?_⟩
  · intro h1 h2
    simp [advMain, advSetupBranch, setup_database, h1, h2]
  · intro h1 h2
    unfold advMain
    rw [if_neg h1]
    unfold advNoSetupBranch
    rcases hu : firstNodeUuid inp.lookup_user_nodes with e | u
    · exact ⟨rfl, rfl, rfl⟩
    · rcases hb : firstNodeUuid inp.lookup_brand_nodes with e | m
      · exact ⟨rfl, rfl, rfl⟩
      · rw [hu, hb] at h2
        simp [isErr] at h2
  · intro h1 h2 h3
    simp [advMain, advSetupBranch, setup_database, firstNodeUuid, h1, h2, h3]

theorem C3_error_paths_witness :
    (advMain runMissingFileYes).loggedErrors = [LogEvent.productDataNotFound] ∧
    (advMain runNoSetupLookupEmpty).loggedErrors = [LogEvent.nodesNotFound] ∧
    (advMain runSetupLookupEmpty).outcome = Outcome.uncaught Exc.indexError := by
  refine ⟨((C3_error_paths runMissingFileYes).1 (by decide) (by decide)).1, ?_, ?_⟩
  · exact ((C3_error_paths runNoSetupLookupEmpty).2.1 (by decide) (by decide)).1
  · exact ((C3_error_paths runSetupLookupEmpty).2.2 (by decide) (by decide) (by decide)).1

/-- C4: when the graph-stream execution of a chat turn raises, the loop prints
`An error occurred: <exception>` and proceeds with the remaining turns:
the rest of the run is exactly the run of the remaining turns (same
termination outcome, so the exception neither propagates nor ends the
loop). -/
theorem C4_turn_exception_caught (s e : String)
    (rest : List (String × Except String (List String)))
    (h : pyLower s ≠ "exit") :
    runLoop ((s, Except.error e) :: rest) =
      { printed := "Assistant: " :: ("An error occurred: " ++ e) ::
          (runLoop rest).printed,
        invoked := s :: (runLoop rest).invoked,
        outcome := (runLoop rest).outcome } := by
  simp [runLoop, h]

theorem C4_turn_exception_caught_witness :
    runLoop [("any boots in stock?", Except.error "boom")] =
      { printed := "Assistant: " :: ("An error occurred: " ++ "boom") ::
          (runLoop []).printed,
        invoked := "any boots in stock?" :: (runLoop []).invoked,
        outcome := (runLoop []).outcome } :=
  C4_turn_exception_caught "any boots in stock?" "boom" [] (by decide)

/-- C5: the chatbot node persists the turn only through the task it spawns
and never awaits: its result is identical for every outcome of that
background write, and the value it returns is `{"messages": [response]}`
together with the single spawned episode — no field of the output reports
success or failure of the write. -/
theorem C5_fire_and_forget (search : SearchCall → List EntityEdge)
    (respond : List Message → Message) (state : ChatbotIn)
    (last_message : Message)
    (h : state.messages.getLast? = some last_message) :
    (∀ b1 b2 : Bool,
      chatbot_with_background search respond state b1 =
        chatbot_with_background search respond state b2) ∧
    chatbot search respond state =
      Except.ok
        { returned_messages := [chat_response search respond state],
          spawned := [chat_episode state last_message
            (chat_response search respond state)] } := by
  refine ⟨fun _ _ => rfl, ?_⟩
  unfold chatbot
  rw [h]

theorem C5_fire_and_forget_witness :
    chatbot (fun _ => []) (fun _ => { isAI := true, content := "resp" })
      { messages := [{ isAI := false, content := "hi" }], user_name := "jess",
        user_node_uuid := "u1", manybirds_node_uuid := "m1" } =
      Except.ok
        { returned_messages := [chat_response (fun _ => [])
            (fun _ => { isAI := true, content := "resp" })
            { messages := [{ isAI := false, content := "hi" }], user_name := "jess",
              user_node_uuid := "u1", manybirds_node_uuid := "m1" }],
          spawned := [chat_episode
            { messages := [{ isAI := false, content := "hi" }], user_name := "jess",
              user_node_uuid := "u1", manybirds_node_uuid := "m1" }
            { isAI := false, content := "hi" }
            (chat_response (fun _ => [])
              (fun _ => { isAI := true, content := "resp" })
              { messages := [{ isAI := false, content := "hi" }], user_name := "jess",
                user_node_uuid := "u1", manybirds_node_uuid := "m1" })] } :=
  (C5_fire_and_forget (fun _ => []) (fun _ => { isAI := true, content := "resp" })
    { messages := [{ isAI := false, content := "hi" }], user_name := "jess",
      user_node_uuid := "u1", manybirds_node_uuid := "m1" }
    { isAI := false, content := "hi" } rfl).2

/-- C6: for every environment mapping, the connection URI, username, and
password the scripts compute (and the advanced script passes to the
Graphiti constructor) are the values of NEO4J_URI, NEO4J_USER,
NEO4J_PASSWORD when set, and `bolt://localhost:7687`, `neo4j`, `password`
when unset; with all three unset the ValueError guard of the beginner script
does not fire. -/
theorem C6_env_defaults (env : String → Option String) :
    (∀ v, env "NEO4J_URI" = some v → neo4j_uri env = v ∧ (client env).uri = v) ∧
    (∀ v, env "NEO4J_USER" = some v → neo4j_user env = v ∧ (client env).user = v) ∧
    (∀ v, env "NEO4J_PASSWORD" = some v →
      neo4j_password env = v ∧ (client env).password = v) ∧
    (env "NEO4J_URI" = none → neo4j_uri env = "bolt://localhost:7687") ∧
    (env "NEO4J_USER" = none → neo4j_user env = "neo4j") ∧
    (env "NEO4J_PASSWORD" = none → neo4j_password env = "password") ∧
    (env "NEO4J_URI" = none → env "NEO4J_USER" = none → env "NEO4J_PASSWORD" = none →
      beginnerValueErrorRaised env = false) := by
  refine ⟨?_, ?_, ?_, ?_, ?_, ?_, ?_⟩
  · intro v h
    constructor <;> simp [client, neo4j_uri, osEnvironGet, h]
  · intro v h
    constructor <;> simp [client, neo4j_user, osEnvironGet, h]
  · intro v h
    constructor <;> simp [client, neo4j_password, osEnvironGet, h]
  · intro h
    simp [neo4j_uri, osEnvironGet, h]
  · intro h
    simp [neo4j_user, osEnvironGet, h]
  · intro h
    simp [neo4j_password, osEnvironGet, h]
  · intro h1 h2 h3
    simp [beginnerValueErrorRaised, pyNot, neo4j_uri, neo4j_user, neo4j_password,
      osEnvironGet, h1, h2, h3]

theorem C6_env_defaults_witness :
    neo4j_uri (fun k => if k = "NEO4J_URI" then some "bolt://db:7687" else none) =
      "bolt://db:7687" ∧
    neo4j_uri (fun _ => none) = "bolt://localhost:7687" ∧
    neo4j_user (fun _ => none) = "neo4j" ∧
    neo4j_password (fun _ => none) = "password" ∧
    beginnerValueErrorRaised (fun _ => none) = false := by
  refine ⟨((C6_env_defaults (fun k => if k = "NEO4J_URI" then some "bolt://db:7687"
      else none)).1 "bolt://db:7687" (by decide)).1, ?_, ?_, ?_, ?_⟩
  · exact (C6_env_defaults (fun _ => none)).2.2.2.1 rfl
  · exact (C6_env_defaults (fun _ => none)).2.2.2.2.1 rfl
  · exact (C6_env_defaults (fun _ => none)).2.2.2.2.2.1 rfl
  · exact (C6_env_defaults (fun _ => none)).2.2.2.2.2.2 rfl rfl rfl

/-- C7: whenever the chat loop is entered, the conversation state passed to
the turns carries a resolved (non-None) user node uuid and a resolved
(non-None) brand node uuid. -/
theorem C7_resolved_uuids (inp : AdvInput)
    (h : (advMain inp).reachedLoop = true) :
    ∃ u m, (advMain inp).loopUuids = some (some u, some m) := by
  rcases advMain_shape inp with ⟨h1, _, _⟩ | ⟨ru, lg, eps, u, m, he⟩
  · rw [h1] at h
    exact absurd h (by decide)
  · rw [he]
    exact ⟨u, m, enterLoop_loopUuids ru lg eps (some u) (some m) inp⟩

theorem C7_resolved_uuids_witness :
    ∃ u m, (advMain runSetupThenExit).loopUuids = some (some u, some m) :=
  C7_resolved_uuids runSetupThenExit (by decide)

/-- C8: the chat loop breaks (ending the conversation, with the input not
treated as a chat message) exactly when the lowercased input is `exit`;
any other input is forwarded to the graph as a chat message; the
destructive setup branch runs exactly when the lowercased answer to the
setup prompt is `yes`; and lowercasing sends `EXIT` and `Exit` to `exit`. -/
theorem C8_sentinels :
    (∀ (s : String) (turn : Except String (List String))
        (rest : List (String × Except String (List String))),
      (runLoop ((s, turn) :: rest) =
        { printed := [], invoked := [], outcome := Outcome.normal }) ↔
        pyLower s = "exit") ∧
    (∀ (s : String) (turn : Except String (List String))
        (rest : List (String × Except String (List String))),
      pyLower s ≠ "exit" →
        (runLoop ((s, turn) :: rest)).invoked = s :: (runLoop rest).invoked) ∧
    (∀ inp : AdvInput, (advMain inp).ranSetup = true ↔ pyLower inp.run_setup = "yes") ∧
    pyLower "EXIT" = "exit" ∧ pyLower "Exit" = "exit" ∧
    pyLower "YES" = "yes" ∧ pyLower "Yes" = "yes" := by
  refine ⟨?_, ?_, ?_, by decide, by decide, by decide, by decide⟩
  · intro s turn rest
    constructor
    · intro h
      by_contra hne
      have := congrArg LoopOut.invoked h
      simp [runLoop, hne] at this
    · intro h
      simp [runLoop, h]
  · intro s turn rest h
    simp [runLoop, h]
  · intro inp
    unfold advMain
    by_cases hs : pyLower inp.run_setup = "yes"
    · simp [hs, advSetupBranch_ranSetup]
    · simp [hs, advNoSetupBranch_ranSetup]

theorem C8_sentinels_witness :
    runLoop [("EXIT", Except.ok [])] =
      { printed := [], invoked := [], outcome := Outcome.normal } ∧
    (advMain runSetupThenExit).ranSetup = true ∧
    (advMain runOneExit).ranSetup = false := by
  refine ⟨(C8_sentinels.1 "EXIT" (Except.ok []) []).mpr (by decide), ?_, ?_⟩
  · exact (C8_sentinels.2.2.1 runSetupThenExit).mpr (by decide)
  · have h := C8_sentinels.2.2.1 runOneExit
    by_contra hc
    simp only [Bool.not_eq_false] at hc
    exact absurd (h.mp hc) (by decide)

end LlmLocal
